import Mathlib

/-!
Shallow embedding of `src/Pymoe/Mal/__init__.py`, the PyMoe MyAnimeList
client.  The HTTP layer is an oracle `World : Request → Response`; the XML
parser `xml.etree.ElementTree.fromstring` is an oracle
`fs : String → ET.Element` (response bodies are assumed well formed, which
is the regime every claim is about); `html.unescape` is an oracle
`unescape : String → String`.  Python exceptions are values of `PyError`
and fallible code returns `Except PyError α`.  Each client method returns
the list of HTTP requests it actually sent, its result, and the client
object after the call; the method bodies never assign to `self`, so the
embedding passes the client through.
-/

/-- Python exception kinds raised or propagated by the module.
`userLoginFailed` and `serverError` are the exception classes from
`Pymoe.errors`; `syntErr` is the built-in `SyntaxError` of Python, which the
module raises on wrongly typed arguments (its docstrings document this:
"raises SyntaxError on invalid data type"); `typeError` and
`attributeError` are the built-in `TypeError` and `AttributeError`. -/
inductive PyError where
  | userLoginFailed (msg : String)
  | serverError (msg : String)
  | syntErr (msg : String)
  | typeError (msg : String)
  | attributeError (missingAttr : String)
deriving DecidableEq

/-- The type `xml.etree.ElementTree.Element`: a tag, optional text, and the list of
direct children in document order. -/
inductive ET.Element where
  | mk (tag : String) (text : Option String) (children : List ET.Element)

def ET.Element.tag : ET.Element → String
  | .mk t _ _ => t

def ET.Element.text : ET.Element → Option String
  | .mk _ t _ => t

def ET.Element.children : ET.Element → List ET.Element
  | .mk _ _ c => c

/-- Python `Element.find(tag)`: the first direct child with the given tag, else
`None`. -/
def ET.Element.findTag (e : ET.Element) (t : String) : Option ET.Element :=
  e.children.find? (fun c => c.tag == t)

/-- Python `Element.findall(tag)`: all direct children with the given tag, in
document order. -/
def ET.Element.findall (e : ET.Element) (t : String) : List ET.Element :=
  e.children.filter (fun c => c.tag == t)

/-- In `xml.etree.ElementTree`, `fromstring` returns an `Element`, not an `ElementTree`, and
`Element` has no `getroot` attribute (only `ElementTree` has one).  The
calls of `getroot` on a `fromstring` result therefore raise
`AttributeError` before any further processing. -/
def ET.Element.getroot (_e : ET.Element) : Except PyError ET.Element :=
  .error (.attributeError "getroot")

/-- An HTTP request as assembled from the arguments of a `requests` call. -/
structure Request where
  method : String
  url : String
  params : List (String × String)
  auth : Option (String × String)
  headers : List (String × String)
deriving DecidableEq

/-- An HTTP response: status code and body text. -/
structure Response where
  status_code : Nat
  text : String
deriving DecidableEq

/-- The HTTP oracle: the response the remote service would give to each
request. -/
abbrev World := Request → Response

/-- The keyword parameters accepted by `requests.Session.request`, the
signature every keyword argument of `requests.get` / `requests.post` is
bound against. -/
def sessionKwargs : List String :=
  ["method", "url", "params", "data", "headers", "cookies", "files", "auth",
   "timeout", "allow_redirects", "proxies", "hooks", "stream", "verify",
   "cert", "json"]

/-- One `requests.get` / `requests.post` call; `kwnames` are the keyword
argument names written at the call site.  Python keyword binding is case
sensitive, so an unknown keyword name raises `TypeError` before any
request is sent; otherwise the request is sent once and the oracle
answers. -/
def requestsCall (w : World) (kwnames : List String) (req : Request) :
    Except PyError Response :=
  match kwnames.filter (fun k => !(sessionKwargs.contains k)) with
  | [] => .ok (w req)
  | k :: _ =>
    .error (.typeError ("request() got an unexpected keyword argument " ++ k))

/-- Python `s.split(";")` on the character list: split at every semicolon,
keeping empty pieces, so the result always has at least one piece. -/
def splitSemiAux : List Char → List (List Char)
  | [] => [[]]
  | c :: cs =>
    if c = ';' then [] :: splitSemiAux cs
    else
      match splitSemiAux cs with
      | [] => [[c]]
      | w :: ws => (c :: w) :: ws

/-- Python `s.split(";")`. -/
def pySplitSemi (s : String) : List String :=
  (splitSemiAux s.data).map (fun l => String.mk l)

/-- Python `x or y` where `x` is a list: a list is falsy exactly when it is
empty. -/
def pyOrList (x y : List String) : List String :=
  if x.isEmpty then y else x

/-- Python `list.append` mutates the list in place and returns `None`; the
source assigns this return value to the `synonyms` field. -/
def pyAppendRet (_l : List String) (_x : Option String) : Option (List String) :=
  none

/-- Python `"...{}...".format(x)` renders `None` as `"None"` and a string
as itself. -/
def pyStrOpt : Option String → String
  | some s => s
  | none => "None"

/-- Attribute access `X.text` where `X` is the result of `Element.find`:
`AttributeError` when the find returned `None`. -/
def textOf : Option ET.Element → Except PyError (Option String)
  | none => .error (.attributeError "text")
  | some e => .ok e.text

/-- Attribute access `X.find(tag)` where `X` may be `None`. -/
def findOn : Option ET.Element → String → Except PyError (Option ET.Element)
  | none, _ => .error (.attributeError "find")
  | some e, t => .ok (e.findTag t)

/-- Models `X.text.split(";")` where `X` is the result of `Element.find`:
`AttributeError` when the element is missing (`None.text`) or when it has
no text (`None.split`). -/
def textSplitSemi : Option ET.Element → Except PyError (List String)
  | none => .error (.attributeError "text")
  | some e =>
    match e.text with
    | none => .error (.attributeError "split")
    | some s => .ok (pySplitSemi s)

/-- Python `s.replace("<br />", "")` on the character list: delete every
leftmost, non-overlapping occurrence of the six characters `<br />`. -/
def stripBrAux : List Char → List Char
  | '<' :: 'b' :: 'r' :: ' ' :: '/' :: '>' :: rest => stripBrAux rest
  | c :: rest => c :: stripBrAux rest
  | [] => []

/-- Python `s.replace("<br />", "")`. -/
def pyStripBr (s : String) : String :=
  String.mk (stripBrAux s.data)

/-- Modelled from the spec: the `Pymoe.Mal.Objects.Anime` value record
(`Objects.py` is not under `src/`; spec section 3 says entities are
immutable value records holding the parsed fields).  The field names are
the keyword arguments used at the construction sites in `src`. -/
structure AnimeRec where
  id : Option String
  title : Option String
  synonyms : Option (List String)
  episodes : Option String
  average : Option String
  anime_start : Option String
  anime_end : Option String
  synopsis : String
  image : Option String
  status_anime : Option String
  type : Option String
deriving DecidableEq

/-- Modelled from the spec: the `Pymoe.Mal.Objects.Manga` value record
(`Objects.py` is not under `src/`); same shape as `AnimeRec` with
chapters/volumes instead of episodes. -/
structure MangaRec where
  id : Option String
  title : Option String
  synonyms : Option (List String)
  chapters : Option String
  volumes : Option String
  average : Option String
  manga_start : Option String
  manga_end : Option String
  synopsis : String
  image : Option String
  status_manga : Option String
  type : Option String
deriving DecidableEq

/-- The dictionary returned by `parse_anime_data` / `parse_manga_data`:
the record list under `data` plus the six `myinfo` counters. -/
structure MyListResult (α : Type) where
  data : List α
  completed : Option String
  onhold : Option String
  dropped : Option String
  planned : Option String
  watching : Option String
  days : Option String
deriving DecidableEq

/-- Modelled from the spec: the `Pymoe.Mal.Objects.User` value record
(`Objects.py` is not under `src/`).  The field names are the keyword
arguments of the `User(...)` construction in `src` (note the source uses
`anime_complete` but `manga_completed`). -/
structure UserRec where
  uid : Option String
  name : Option String
  anime_list : List AnimeRec
  anime_complete : Option String
  anime_onhold : Option String
  anime_dropped : Option String
  anime_planned : Option String
  anime_watching : Option String
  anime_days : Option String
  manga_list : List MangaRec
  manga_completed : Option String
  manga_onhold : Option String
  manga_dropped : Option String
  manga_planned : Option String
  manga_watching : Option String
  manga_days : Option String
deriving DecidableEq

/-- A dynamically typed Python value handed to or returned by the client;
the `isinstance` guards in add/update/delete distinguish these. -/
inductive PyObj where
  | anime (a : AnimeRec)
  | manga (m : MangaRec)
  | other (className : String)
deriving DecidableEq

def PyObj.isAnime : PyObj → Bool
  | .anime _ => true
  | _ => false

def PyObj.isManga : PyObj → Bool
  | .manga _ => true
  | _ => false

/-- Python `type(data)` as interpolated into the error messages (modulo the
class-repr punctuation of Python). -/
def pyTypeName : PyObj → String
  | .anime _ => "Pymoe.Mal.Objects.Anime"
  | .manga _ => "Pymoe.Mal.Objects.Manga"
  | .other n => n

/-- The `SyntaxError` message of `_anime_add` / `_anime_update` /
`_anime_delete`. -/
def animeTypeMsg (d : PyObj) : String :=
  "Invalid type: data should be a Pymoe.Mal.Objects.Anime object. Got a "
    ++ pyTypeName d

/-- The `SyntaxError` message of `_manga_add` / `_manga_update` /
`_manga_delete`. -/
def mangaTypeMsg (d : PyObj) : String :=
  "Invalid type: data should be a Pymoe.Mal.Objects.Manga object. Got a "
    ++ pyTypeName d

/-- The client state stored by `__init__` (the `anime` / `manga`
namedtuples hold bound method references only, not data). -/
structure MAL where
  apiurl : String
  apiusers : String
  header : List (String × String)
  username : String
  password : String
deriving DecidableEq

/-- The field values `__init__` assigns before verifying credentials. -/
def freshClient (username password : String) : MAL :=
  { apiurl := "https://myanimelist.net/api/",
    apiusers := "https://myanimelist.net/malappinfo.php",
    header := [("User-Agent", "Pymoe (git.vertinext.com/ccubed/Pymoe)")],
    username := username, password := password }

/-- The request `_verify_credentials` sends. -/
def MAL.verifyReq (c : MAL) : Request :=
  { method := "GET", url := c.apiurl ++ "account/verify_credentials.xml",
    params := [], auth := some (c.username, c.password), headers := c.header }

/-- Method `_verify_credentials`: a basic-auth GET; any status other than 200
raises `UserLoginFailed`. -/
def MAL.verify_credentials (w : World) (c : MAL) :
    List Request × Except PyError Unit × MAL :=
  let body : List Request × Except PyError Unit :=
    match requestsCall w ["auth", "headers"] (MAL.verifyReq c) with
    | .error e => ([], .error e)
    | .ok r =>
      ([MAL.verifyReq c],
        if r.status_code ≠ 200 then
          .error (.userLoginFailed "Username or Password incorrect.")
        else .ok ())
  (body.1, body.2, c)

/-- Constructor `__init__`: store the URLs, header and credentials, then verify the
credentials; construction succeeds only if verification does. -/
def MAL.init (w : World) (username password : String) :
    List Request × Except PyError MAL :=
  match MAL.verify_credentials w (freshClient username password) with
  | (tr, .error e, _) => (tr, .error e)
  | (tr, .ok _, cA) => (tr, .ok cA)

/-- The body of the per-entry loop of `_search` with `which == 1`, which
is textually identical to the loop body of `parse_anime_data`: build one
`Anime` record from an entry element, evaluating the constructor
arguments in source order.  The `synonyms` keyword receives the return
value of `list.append`. -/
def MAL.parseAnimeEntry (unescape : String → String) (item : ET.Element) :
    Except PyError AnimeRec := do
  let synSplit ← textSplitSemi (item.findTag "synonyms")
  let syn := pyOrList synSplit []
  let idText ← textOf (item.findTag "id")
  let titleText ← textOf (item.findTag "title")
  let englishText ← textOf (item.findTag "english")
  let episodesText ← textOf (item.findTag "episodes")
  let scoreText ← textOf (item.findTag "score")
  let startText ← textOf (item.findTag "start_date")
  let endText ← textOf (item.findTag "end_date")
  let synopsisText ← textOf (item.findTag "synopsis")
  let synopsis ←
    match synopsisText with
    | none => Except.error (PyError.attributeError "replace")
    | some s => Except.ok (unescape (pyStripBr s))
  let imageText ← textOf (item.findTag "image")
  let statusText ← textOf (item.findTag "status")
  let typeText ← textOf (item.findTag "type")
  pure { id := idText, title := titleText,
         synonyms := pyAppendRet syn englishText,
         episodes := episodesText, average := scoreText,
         anime_start := startText, anime_end := endText,
         synopsis := synopsis, image := imageText,
         status_anime := statusText, type := typeText }

/-- The body of the per-entry loop of `_search` with `which == 2`, which
is textually identical to the loop body of `parse_manga_data`. -/
def MAL.parseMangaEntry (unescape : String → String) (item : ET.Element) :
    Except PyError MangaRec := do
  let synSplit ← textSplitSemi (item.findTag "synonyms")
  let syn := pyOrList synSplit []
  let idText ← textOf (item.findTag "id")
  let titleText ← textOf (item.findTag "title")
  let englishText ← textOf (item.findTag "english")
  let chaptersText ← textOf (item.findTag "chapters")
  let volumesText ← textOf (item.findTag "volumes")
  let scoreText ← textOf (item.findTag "score")
  let startText ← textOf (item.findTag "start_date")
  let endText ← textOf (item.findTag "end_date")
  let synopsisText ← textOf (item.findTag "synopsis")
  let synopsis ←
    match synopsisText with
    | none => Except.error (PyError.attributeError "replace")
    | some s => Except.ok (unescape (pyStripBr s))
  let imageText ← textOf (item.findTag "image")
  let statusText ← textOf (item.findTag "status")
  let typeText ← textOf (item.findTag "type")
  pure { id := idText, title := titleText,
         synonyms := pyAppendRet syn englishText,
         chapters := chaptersText, volumes := volumesText,
         average := scoreText, manga_start := startText,
         manga_end := endText, synopsis := synopsis, image := imageText,
         status_manga := statusText, type := typeText }

/-- The request `_search` sends (`which` is 1 for anime, anything else for
manga, mirroring the conditional expression of the source). -/
def MAL.searchReq (c : MAL) (which : Nat) (term : String) : Request :=
  { method := "GET",
    url := c.apiurl ++ (if which = 1 then "anime" else "manga") ++ "/search.xml",
    params := [("q", term)], auth := some (c.username, c.password),
    headers := c.header }

/-- The part of `_search` after the status check: `ET.fromstring` then
`.getroot()` (which raises `AttributeError`), then the per-entry loops. -/
def MAL.searchParse (fs : String → ET.Element) (unescape : String → String)
    (which : Nat) (txt : String) : Except PyError (List PyObj) := do
  let root ← (fs txt).getroot
  if which = 1 then
    let recs ← (root.findall "entry").mapM (MAL.parseAnimeEntry unescape)
    pure (recs.map PyObj.anime)
  else
    let recs ← (root.findall "entry").mapM (MAL.parseMangaEntry unescape)
    pure (recs.map PyObj.manga)

/-- Method `_search`: GET the search endpoint; on a non-200 status return `[]`;
otherwise parse the body. -/
def MAL.search (w : World) (fs : String → ET.Element)
    (unescape : String → String) (c : MAL) (which : Nat) (term : String) :
    List Request × Except PyError (List PyObj) × MAL :=
  let body : List Request × Except PyError (List PyObj) :=
    match requestsCall w ["params", "auth", "headers"] (MAL.searchReq c which term) with
    | .error e => ([], .error e)
    | .ok r =>
      ([MAL.searchReq c which term],
        if r.status_code ≠ 200 then .ok []
        else MAL.searchParse fs unescape which r.text)
  (body.1, body.2, c)

/-- Method `_search_anime`. -/
def MAL.search_anime (w : World) (fs : String → ET.Element)
    (unescape : String → String) (c : MAL) (term : String) :
    List Request × Except PyError (List PyObj) × MAL :=
  MAL.search w fs unescape c 1 term

/-- Method `_search_manga`. -/
def MAL.search_manga (w : World) (fs : String → ET.Element)
    (unescape : String → String) (c : MAL) (term : String) :
    List Request × Except PyError (List PyObj) × MAL :=
  MAL.search w fs unescape c 2 term

/-- The request `_anime_add` sends. -/
def MAL.animeAddReq (toXml : AnimeRec → String) (c : MAL) (a : AnimeRec) :
    Request :=
  { method := "POST",
    url := c.apiurl ++ "animelist/add/" ++ pyStrOpt a.id ++ ".xml",
    params := [("data", toXml a)], auth := some (c.username, c.password),
    headers := c.header }

/-- Method `_anime_add`: only an `Anime` record is accepted (anything else raises
`SyntaxError` without any request); the serialized record is POSTed and a
non-201 status raises `ServerError` carrying the body.  `toXml` is the
serialization `to_xml` of the record (`Objects.py` is not under `src/`). -/
def MAL.anime_add (w : World) (toXml : AnimeRec → String) (c : MAL)
    (data : PyObj) : List Request × Except PyError Bool × MAL :=
  let body : List Request × Except PyError Bool :=
    match data with
    | .anime a =>
      match requestsCall w ["params", "auth", "headers"] (MAL.animeAddReq toXml c a) with
      | .error e => ([], .error e)
      | .ok r =>
        ([MAL.animeAddReq toXml c a],
          if r.status_code ≠ 201 then .error (.serverError r.text)
          else .ok true)
    | _ => ([], .error (.syntErr (animeTypeMsg data)))
  (body.1, body.2, c)

/-- The request `_manga_add` sends. -/
def MAL.mangaAddReq (toXml : MangaRec → String) (c : MAL) (m : MangaRec) :
    Request :=
  { method := "POST",
    url := c.apiurl ++ "mangalist/add/" ++ pyStrOpt m.id ++ ".xml",
    params := [("data", toXml m)], auth := some (c.username, c.password),
    headers := c.header }

/-- Method `_manga_add`, symmetric to `_anime_add`. -/
def MAL.manga_add (w : World) (toXml : MangaRec → String) (c : MAL)
    (data : PyObj) : List Request × Except PyError Bool × MAL :=
  let body : List Request × Except PyError Bool :=
    match data with
    | .manga m =>
      match requestsCall w ["params", "auth", "headers"] (MAL.mangaAddReq toXml c m) with
      | .error e => ([], .error e)
      | .ok r =>
        ([MAL.mangaAddReq toXml c m],
          if r.status_code ≠ 201 then .error (.serverError r.text)
          else .ok true)
    | _ => ([], .error (.syntErr (mangaTypeMsg data)))
  (body.1, body.2, c)

/-- The request `_anime_update` would send (it never is sent: the call
passes the invalid keyword `Headers`, so no headers argument reaches the
request). -/
def MAL.animeUpdateReq (toXml : AnimeRec → String) (c : MAL) (a : AnimeRec) :
    Request :=
  { method := "POST",
    url := c.apiurl ++ "animelist/update/" ++ pyStrOpt a.id ++ ".xml",
    params := [("data", toXml a)], auth := some (c.username, c.password),
    headers := [] }

/-- Method `_anime_update`: the `requests.post` call is written with the keyword
`Headers` (capital H), which `requests` does not accept. -/
def MAL.anime_update (w : World) (toXml : AnimeRec → String) (c : MAL)
    (data : PyObj) : List Request × Except PyError Bool × MAL :=
  let body : List Request × Except PyError Bool :=
    match data with
    | .anime a =>
      match requestsCall w ["params", "auth", "Headers"] (MAL.animeUpdateReq toXml c a) with
      | .error e => ([], .error e)
      | .ok r =>
        ([MAL.animeUpdateReq toXml c a],
          if r.status_code ≠ 200 then .error (.serverError r.text)
          else .ok true)
    | _ => ([], .error (.syntErr (animeTypeMsg data)))
  (body.1, body.2, c)

/-- The request `_manga_update` would send. -/
def MAL.mangaUpdateReq (toXml : MangaRec → String) (c : MAL) (m : MangaRec) :
    Request :=
  { method := "POST",
    url := c.apiurl ++ "mangalist/update/" ++ pyStrOpt m.id ++ ".xml",
    params := [("data", toXml m)], auth := some (c.username, c.password),
    headers := [] }

/-- Method `_manga_update`, symmetric to `_anime_update` (same `Headers` keyword). -/
def MAL.manga_update (w : World) (toXml : MangaRec → String) (c : MAL)
    (data : PyObj) : List Request × Except PyError Bool × MAL :=
  let body : List Request × Except PyError Bool :=
    match data with
    | .manga m =>
      match requestsCall w ["params", "auth", "Headers"] (MAL.mangaUpdateReq toXml c m) with
      | .error e => ([], .error e)
      | .ok r =>
        ([MAL.mangaUpdateReq toXml c m],
          if r.status_code ≠ 200 then .error (.serverError r.text)
          else .ok true)
    | _ => ([], .error (.syntErr (mangaTypeMsg data)))
  (body.1, body.2, c)

/-- The request `_anime_delete` would send (no params, and the `Headers`
keyword never becomes a headers argument). -/
def MAL.animeDeleteReq (c : MAL) (a : AnimeRec) : Request :=
  { method := "POST",
    url := c.apiurl ++ "animelist/delete/" ++ pyStrOpt a.id ++ ".xml",
    params := [], auth := some (c.username, c.password), headers := [] }

/-- Method `_anime_delete`: also written with the invalid keyword `Headers`. -/
def MAL.anime_delete (w : World) (c : MAL) (data : PyObj) :
    List Request × Except PyError Bool × MAL :=
  let body : List Request × Except PyError Bool :=
    match data with
    | .anime a =>
      match requestsCall w ["auth", "Headers"] (MAL.animeDeleteReq c a) with
      | .error e => ([], .error e)
      | .ok r =>
        ([MAL.animeDeleteReq c a],
          if r.status_code ≠ 200 then .error (.serverError r.text)
          else .ok true)
    | _ => ([], .error (.syntErr (animeTypeMsg data)))
  (body.1, body.2, c)

/-- The request `_manga_delete` would send. -/
def MAL.mangaDeleteReq (c : MAL) (m : MangaRec) : Request :=
  { method := "POST",
    url := c.apiurl ++ "mangalist/delete/" ++ pyStrOpt m.id ++ ".xml",
    params := [], auth := some (c.username, c.password), headers := [] }

/-- Method `_manga_delete`, symmetric to `_anime_delete`. -/
def MAL.manga_delete (w : World) (c : MAL) (data : PyObj) :
    List Request × Except PyError Bool × MAL :=
  let body : List Request × Except PyError Bool :=
    match data with
    | .manga m =>
      match requestsCall w ["auth", "Headers"] (MAL.mangaDeleteReq c m) with
      | .error e => ([], .error e)
      | .ok r =>
        ([MAL.mangaDeleteReq c m],
          if r.status_code ≠ 200 then .error (.serverError r.text)
          else .ok true)
    | _ => ([], .error (.syntErr (mangaTypeMsg data)))
  (body.1, body.2, c)

/-- Static method `parse_anime_data`: first `getroot` (which raises
`AttributeError`), then the `anime` entry loop and the `myinfo` counters. -/
def MAL.parse_anime_data (fs : String → ET.Element)
    (unescape : String → String) (xml : String) :
    Except PyError (MyListResult AnimeRec) := do
  let root ← (fs xml).getroot
  let anime_list ← (root.findall "anime").mapM (MAL.parseAnimeEntry unescape)
  let completed ← textOf (← findOn (root.findTag "myinfo") "user_completed")
  let onhold ← textOf (← findOn (root.findTag "myinfo") "user_onhold")
  let dropped ← textOf (← findOn (root.findTag "myinfo") "user_dropped")
  let planned ← textOf (← findOn (root.findTag "myinfo") "user_plantowatch")
  let watching ← textOf (← findOn (root.findTag "myinfo") "user_watching")
  let days ← textOf (← findOn (root.findTag "myinfo") "user_days_spent_watching")
  pure { data := anime_list, completed := completed, onhold := onhold,
         dropped := dropped, planned := planned, watching := watching,
         days := days }

/-- Static method `parse_manga_data`, symmetric to `parse_anime_data` (with the
`user_plantoread` / `user_reading` counter names). -/
def MAL.parse_manga_data (fs : String → ET.Element)
    (unescape : String → String) (xml : String) :
    Except PyError (MyListResult MangaRec) := do
  let root ← (fs xml).getroot
  let manga_list ← (root.findall "manga").mapM (MAL.parseMangaEntry unescape)
  let completed ← textOf (← findOn (root.findTag "myinfo") "user_completed")
  let onhold ← textOf (← findOn (root.findTag "myinfo") "user_onhold")
  let dropped ← textOf (← findOn (root.findTag "myinfo") "user_dropped")
  let planned ← textOf (← findOn (root.findTag "myinfo") "user_plantoread")
  let watching ← textOf (← findOn (root.findTag "myinfo") "user_reading")
  let days ← textOf (← findOn (root.findTag "myinfo") "user_days_spent_watching")
  pure { data := manga_list, completed := completed, onhold := onhold,
         dropped := dropped, planned := planned, watching := watching,
         days := days }

/-- The request `user` sends for each list kind (`ty` is `"anime"` or
`"manga"`); no auth argument is passed. -/
def MAL.userReq (c : MAL) (name ty : String) : Request :=
  { method := "GET", url := c.apiusers,
    params := [("u", name), ("status", "all"), ("type", ty)],
    auth := none, headers := c.header }

/-- The part of `user` after both GETs: `ET.fromstring(...).getroot()`
(which raises `AttributeError`), the `myinfo` identity fields, the two
list parses, and the `User(...)` construction. -/
def MAL.userParse (fs : String → ET.Element) (unescape : String → String)
    (animeText mangaText : String) : Except PyError UserRec := do
  let root ← (fs animeText).getroot
  let uid ← textOf (← findOn (root.findTag "myinfo") "user_id")
  let uname ← textOf (← findOn (root.findTag "myinfo") "user_name")
  let aL ← MAL.parse_anime_data fs unescape animeText
  let mL ← MAL.parse_manga_data fs unescape mangaText
  pure { uid := uid, name := uname,
         anime_list := aL.data, anime_complete := aL.completed,
         anime_onhold := aL.onhold, anime_dropped := aL.dropped,
         anime_planned := aL.planned, anime_watching := aL.watching,
         anime_days := aL.days,
         manga_list := mL.data, manga_completed := mL.completed,
         manga_onhold := mL.onhold, manga_dropped := mL.dropped,
         manga_planned := mL.planned, manga_watching := mL.watching,
         manga_days := mL.days }

/-- Method `user`: GET the anime list, GET the manga list, then parse both. -/
def MAL.user (w : World) (fs : String → ET.Element)
    (unescape : String → String) (c : MAL) (name : String) :
    List Request × Except PyError UserRec × MAL :=
  let body : List Request × Except PyError UserRec :=
    match requestsCall w ["params", "headers"] (MAL.userReq c name "anime") with
    | .error e => ([], .error e)
    | .ok anime_data =>
      match requestsCall w ["params", "headers"] (MAL.userReq c name "manga") with
      | .error e => ([MAL.userReq c name "anime"], .error e)
      | .ok manga_data =>
        ([MAL.userReq c name "anime", MAL.userReq c name "manga"],
          MAL.userParse fs unescape anime_data.text manga_data.text)
  (body.1, body.2, c)

/-! Concrete sample data used by witnesses and counterexamples. -/

/-- A world that answers every request with status 200. -/
def w200 : World := fun _ => { status_code := 200, text := "body200" }

/-- A world that answers every request with status 201. -/
def w201 : World := fun _ => { status_code := 201, text := "created" }

/-- A world that answers every request with status 401. -/
def w401 : World := fun _ => { status_code := 401, text := "denied" }

/-- A concrete `html.unescape` oracle (the sample texts contain no
entities, so the identity is the correct value on them). -/
def unesc0 : String → String := fun s => s

/-- A concrete serialization oracle for anime records. -/
def toXml0 : AnimeRec → String := fun _ => "<entry></entry>"

/-- A concrete serialization oracle for manga records. -/
def toXmlM0 : MangaRec → String := fun _ => "<entry></entry>"

/-- A concrete client (the fields `__init__` assigns). -/
def c0 : MAL := freshClient "user" "pass"

/-- A fully populated sample anime entry element. -/
def sampleEntry : ET.Element :=
  .mk "entry" none
    [.mk "id" (some "1") [], .mk "title" (some "T") [],
     .mk "synonyms" (some "a;b") [], .mk "english" (some "E") [],
     .mk "episodes" (some "12") [], .mk "score" (some "8") [],
     .mk "start_date" (some "2000") [], .mk "end_date" (some "2001") [],
     .mk "synopsis" (some "S") [], .mk "image" (some "I") [],
     .mk "status" (some "Finished") [], .mk "type" (some "TV") []]

/-- A fully populated sample manga entry element. -/
def sampleMangaEntry : ET.Element :=
  .mk "entry" none
    [.mk "id" (some "2") [], .mk "title" (some "MT") [],
     .mk "synonyms" (some "c;d") [], .mk "english" (some "ME") [],
     .mk "chapters" (some "10") [], .mk "volumes" (some "3") [],
     .mk "score" (some "7") [], .mk "start_date" (some "1999") [],
     .mk "end_date" (some "2000") [], .mk "synopsis" (some "MS") [],
     .mk "image" (some "MI") [], .mk "status" (some "Publishing") [],
     .mk "type" (some "Manga") []]

/-- An entry element whose `synonyms` element is present but has no text. -/
def emptySynEntry : ET.Element :=
  .mk "entry" none [.mk "synonyms" none []]

/-- A parsing oracle returning a root with one entry child. -/
def fsEntry : String → ET.Element := fun _ => .mk "root" none [sampleEntry]

/-- A concrete anime record. -/
def a0 : AnimeRec :=
  { id := some "1", title := some "T", synonyms := none,
    episodes := some "12", average := some "8", anime_start := some "2000",
    anime_end := some "2001", synopsis := "S", image := some "I",
    status_anime := some "Finished", type := some "TV" }

/-- A concrete manga record. -/
def m0 : MangaRec :=
  { id := some "2", title := some "MT", synonyms := none,
    chapters := some "10", volumes := some "3", average := some "7",
    manga_start := some "1999", manga_end := some "2000", synopsis := "MS",
    image := some "MI", status_manga := some "Publishing",
    type := some "Manga" }

/-- Tests whether the outcome is a raised Python `TypeError`. -/
def isTypeError : Except PyError Bool → Bool
  | .error (.typeError _) => true
  | _ => false

/-! Helper lemmas about the split used for synonyms. -/

theorem splitSemiAux_ne_nil (l : List Char) : splitSemiAux l ≠ [] := by
  cases l with
  | nil => simp [splitSemiAux]
  | cons c cs =>
    simp only [splitSemiAux]
    by_cases h : c = ';'
    · simp [h]
    · simp only [h, if_false]
      cases hs : splitSemiAux cs <;> simp

theorem pySplitSemi_ne_nil (s : String) : pySplitSemi s ≠ [] := by
  simp only [pySplitSemi, ne_eq, List.map_eq_nil_iff]
  exact splitSemiAux_ne_nil s.data

theorem pyOrList_id (s : String) : pyOrList (pySplitSemi s) [] = pySplitSemi s := by
  unfold pyOrList
  cases hx : pySplitSemi s with
  | nil => exact absurd hx (pySplitSemi_ne_nil s)
  | cons a t => simp

/-! The claims. -/

/-- C1: a search whose HTTP response has status 200 does NOT return one
record per `entry` element: `_search` calls `.getroot()` on the `Element`
returned by `ET.fromstring`, so it raises `AttributeError` before parsing
any entry, for anime and manga alike (the GET itself was issued). -/
theorem C1_search_200_raises_attributeerror :
    (MAL.search_anime w200 fsEntry unesc0 c0 "naruto").2.1
        = Except.error (PyError.attributeError "getroot")
    ∧ (MAL.search_anime w200 fsEntry unesc0 c0 "naruto").1
        = [MAL.searchReq c0 1 "naruto"]
    ∧ (MAL.search_manga w200 fsEntry unesc0 c0 "naruto").2.1
        = Except.error (PyError.attributeError "getroot") :=
  ⟨rfl, rfl, rfl⟩

/-- C2: the synonyms field of a parsed record does not equal the
semicolon-split list: the source assigns the return value of
`list.append`, which is `None`.  On a fully populated entry whose
`synonyms` text is `"a;b"` (resp. `"c;d"`), the record is produced with
`synonyms = none`, not the split list. -/
theorem C2_synonyms_field_is_none :
    MAL.parseAnimeEntry unesc0 sampleEntry = Except.ok
        { id := some "1", title := some "T", synonyms := none,
          episodes := some "12", average := some "8",
          anime_start := some "2000", anime_end := some "2001",
          synopsis := "S", image := some "I",
          status_anime := some "Finished", type := some "TV" }
    ∧ MAL.parseMangaEntry unesc0 sampleMangaEntry = Except.ok
        { id := some "2", title := some "MT", synonyms := none,
          chapters := some "10", volumes := some "3", average := some "7",
          manga_start := some "1999", manga_end := some "2000",
          synopsis := "MS", image := some "MI",
          status_manga := some "Publishing", type := some "Manga" }
    ∧ pySplitSemi "a;b" = ["a", "b"]
    ∧ (none : Option (List String)) ≠ some (pySplitSemi "a;b") := by
  refine ⟨rfl, rfl, rfl, ?_⟩
  simp

/-- C3 counterexample: passing a Manga record to the anime add operation
raises SyntaxError, not TypeError, so the claim that a type error is
raised is false as stated. -/
theorem C3_counterexample_syntaxerror_not_typeerror :
    (MAL.anime_add w200 toXml0 c0 (PyObj.manga m0)).2.1
        = Except.error (PyError.syntErr (animeTypeMsg (PyObj.manga m0)))
    ∧ isTypeError (MAL.anime_add w200 toXml0 c0 (PyObj.manga m0)).2.1 = false :=
  ⟨rfl, rfl⟩

/-- C3 (amended): a wrongly typed argument makes each of
add/update/delete raise SyntaxError, whose message names the expected
record class, and no HTTP request is issued. -/
theorem C3_wrong_type_syntaxerror_no_request (w : World)
    (tx : AnimeRec → String) (tm : MangaRec → String) (c : MAL) (d : PyObj) :
    (d.isAnime = false →
        MAL.anime_add w tx c d
            = ([], Except.error (PyError.syntErr (animeTypeMsg d)), c)
        ∧ MAL.anime_update w tx c d
            = ([], Except.error (PyError.syntErr (animeTypeMsg d)), c)
        ∧ MAL.anime_delete w c d
            = ([], Except.error (PyError.syntErr (animeTypeMsg d)), c))
    ∧ (d.isManga = false →
        MAL.manga_add w tm c d
            = ([], Except.error (PyError.syntErr (mangaTypeMsg d)), c)
        ∧ MAL.manga_update w tm c d
            = ([], Except.error (PyError.syntErr (mangaTypeMsg d)), c)
        ∧ MAL.manga_delete w c d
            = ([], Except.error (PyError.syntErr (mangaTypeMsg d)), c)) := by
  constructor
  · intro h
    cases d with
    | anime a => simp [PyObj.isAnime] at h
    | manga m => exact ⟨rfl, rfl, rfl⟩
    | other n => exact ⟨rfl, rfl, rfl⟩
  · intro h
    cases d with
    | anime a => exact ⟨rfl, rfl, rfl⟩
    | manga m => simp [PyObj.isManga] at h
    | other n => exact ⟨rfl, rfl, rfl⟩

/-- C3 witness: a Manga record passed to the anime add operation. -/
theorem C3_wrong_type_syntaxerror_no_request_witness :
    MAL.anime_add w200 toXml0 c0 (PyObj.manga m0)
      = ([], Except.error (PyError.syntErr (animeTypeMsg (PyObj.manga m0))), c0) :=
  ((C3_wrong_type_syntaxerror_no_request w200 toXml0 toXmlM0 c0
      (PyObj.manga m0)).1 rfl).1

/-- C4: the update and delete operations never reach the service on a
correctly typed record: they pass the invalid keyword `Headers` to
`requests.post`, which raises `TypeError` before any request is sent,
instead of posting and mapping status 200 to success. -/
theorem C4_update_delete_raise_typeerror (w : World)
    (tx : AnimeRec → String) (tm : MangaRec → String) (c : MAL)
    (a : AnimeRec) (m : MangaRec) :
    MAL.anime_update w tx c (PyObj.anime a)
        = ([], Except.error (PyError.typeError
            ("request() got an unexpected keyword argument " ++ "Headers")), c)
    ∧ MAL.manga_update w tm c (PyObj.manga m)
        = ([], Except.error (PyError.typeError
            ("request() got an unexpected keyword argument " ++ "Headers")), c)
    ∧ MAL.anime_delete w c (PyObj.anime a)
        = ([], Except.error (PyError.typeError
            ("request() got an unexpected keyword argument " ++ "Headers")), c)
    ∧ MAL.manga_delete w c (PyObj.manga m)
        = ([], Except.error (PyError.typeError
            ("request() got an unexpected keyword argument " ++ "Headers")), c) :=
  ⟨rfl, rfl, rfl, rfl⟩

/-- C5: on a correctly typed record, add POSTs exactly one request and
returns `True` exactly when the response status is 201; any other status
raises `ServerError` carrying the response body text. -/
theorem C5_add_success_iff_201 (w : World) (tx : AnimeRec → String)
    (tm : MangaRec → String) (c : MAL) (a : AnimeRec) (m : MangaRec) :
    ((MAL.anime_add w tx c (PyObj.anime a)).2.1 = Except.ok true
        ↔ (w (MAL.animeAddReq tx c a)).status_code = 201)
    ∧ ((w (MAL.animeAddReq tx c a)).status_code ≠ 201 →
        (MAL.anime_add w tx c (PyObj.anime a)).2.1
          = Except.error (PyError.serverError (w (MAL.animeAddReq tx c a)).text))
    ∧ (MAL.anime_add w tx c (PyObj.anime a)).1 = [MAL.animeAddReq tx c a]
    ∧ ((MAL.manga_add w tm c (PyObj.manga m)).2.1 = Except.ok true
        ↔ (w (MAL.mangaAddReq tm c m)).status_code = 201)
    ∧ ((w (MAL.mangaAddReq tm c m)).status_code ≠ 201 →
        (MAL.manga_add w tm c (PyObj.manga m)).2.1
          = Except.error (PyError.serverError (w (MAL.mangaAddReq tm c m)).text))
    ∧ (MAL.manga_add w tm c (PyObj.manga m)).1 = [MAL.mangaAddReq tm c m] := by
  have eA : MAL.anime_add w tx c (PyObj.anime a)
      = ([MAL.animeAddReq tx c a],
         if (w (MAL.animeAddReq tx c a)).status_code ≠ 201
         then Except.error (PyError.serverError (w (MAL.animeAddReq tx c a)).text)
         else Except.ok true, c) := rfl
  have eM : MAL.manga_add w tm c (PyObj.manga m)
      = ([MAL.mangaAddReq tm c m],
         if (w (MAL.mangaAddReq tm c m)).status_code ≠ 201
         then Except.error (PyError.serverError (w (MAL.mangaAddReq tm c m)).text)
         else Except.ok true, c) := rfl
  rw [eA, eM]
  by_cases hA : (w (MAL.animeAddReq tx c a)).status_code = 201 <;>
    by_cases hM : (w (MAL.mangaAddReq tm c m)).status_code = 201 <;>
    simp [hA, hM]

/-- C5 witness: a 201 response makes the anime add return `True`. -/
theorem C5_add_success_iff_201_witness :
    (MAL.anime_add w201 toXml0 c0 (PyObj.anime a0)).2.1 = Except.ok true :=
  (C5_add_success_iff_201 w201 toXml0 toXmlM0 c0 a0 m0).1.mpr rfl

/-- C6: construction sends exactly one verification GET with basic
authentication, raises `UserLoginFailed` if and only if its response
status is not 200, and on status 200 yields the client with the stored
state. -/
theorem C6_init_verifies_credentials (w : World) (u p : String) :
    (MAL.init w u p).1 = [MAL.verifyReq (freshClient u p)]
    ∧ (MAL.verifyReq (freshClient u p)).method = "GET"
    ∧ (MAL.verifyReq (freshClient u p)).auth = some (u, p)
    ∧ ((MAL.init w u p).2
          = Except.error (PyError.userLoginFailed "Username or Password incorrect.")
        ↔ (w (MAL.verifyReq (freshClient u p))).status_code ≠ 200)
    ∧ ((w (MAL.verifyReq (freshClient u p))).status_code = 200 →
        (MAL.init w u p).2 = Except.ok (freshClient u p)) := by
  have hv : MAL.verify_credentials w (freshClient u p)
      = ([MAL.verifyReq (freshClient u p)],
         if (w (MAL.verifyReq (freshClient u p))).status_code ≠ 200 then
           Except.error (PyError.userLoginFailed "Username or Password incorrect.")
         else Except.ok (), freshClient u p) := rfl
  have init200 : (w (MAL.verifyReq (freshClient u p))).status_code = 200 →
      MAL.init w u p
        = ([MAL.verifyReq (freshClient u p)], Except.ok (freshClient u p)) := by
    intro h
    unfold MAL.init
    rw [hv, if_neg (by simp [h])]
  have initNe : ¬(w (MAL.verifyReq (freshClient u p))).status_code = 200 →
      MAL.init w u p
        = ([MAL.verifyReq (freshClient u p)],
           Except.error (PyError.userLoginFailed "Username or Password incorrect.")) := by
    intro h
    unfold MAL.init
    rw [hv, if_pos h]
  refine ⟨?_, rfl, rfl, ⟨?_, ?_⟩, ?_⟩
  · by_cases h : (w (MAL.verifyReq (freshClient u p))).status_code = 200
    · rw [init200 h]
    · rw [initNe h]
  · intro he
    by_cases h : (w (MAL.verifyReq (freshClient u p))).status_code = 200
    · rw [init200 h] at he
      simp at he
    · exact h
  · intro hne
    rw [initNe hne]
  · intro h200
    rw [init200 h200]

/-- C6 witness: a 401 verification response makes construction fail with
`UserLoginFailed`. -/
theorem C6_init_verifies_credentials_witness :
    (MAL.init w401 "alice" "hunter2").2
      = Except.error (PyError.userLoginFailed "Username or Password incorrect.") :=
  (C6_init_verifies_credentials w401 "alice" "hunter2").2.2.2.1.mpr (by decide)

/-- C7: when the search response status is not 200, both searches return
the empty list without raising any error (the GET was still issued, and
the client is unchanged). -/
theorem C7_search_non200_empty (w : World) (fs : String → ET.Element)
    (unescape : String → String) (c : MAL) (term : String)
    (hA : (w (MAL.searchReq c 1 term)).status_code ≠ 200)
    (hM : (w (MAL.searchReq c 2 term)).status_code ≠ 200) :
    MAL.search_anime w fs unescape c term
      = ([MAL.searchReq c 1 term], Except.ok [], c)
    ∧ MAL.search_manga w fs unescape c term
      = ([MAL.searchReq c 2 term], Except.ok [], c) := by
  have e1 : MAL.search_anime w fs unescape c term
      = ([MAL.searchReq c 1 term],
         if (w (MAL.searchReq c 1 term)).status_code ≠ 200 then Except.ok []
         else MAL.searchParse fs unescape 1 (w (MAL.searchReq c 1 term)).text, c) := rfl
  have e2 : MAL.search_manga w fs unescape c term
      = ([MAL.searchReq c 2 term],
         if (w (MAL.searchReq c 2 term)).status_code ≠ 200 then Except.ok []
         else MAL.searchParse fs unescape 2 (w (MAL.searchReq c 2 term)).text, c) := rfl
  rw [e1, e2, if_pos hA, if_pos hM]
  exact ⟨rfl, rfl⟩

/-- C7 witness: a 401 search response yields the empty list. -/
theorem C7_search_non200_empty_witness :
    MAL.search_anime w401 fsEntry unesc0 c0 "x"
      = ([MAL.searchReq c0 1 "x"], Except.ok [], c0) :=
  (C7_search_non200_empty w401 fsEntry unesc0 c0 "x" (by decide) (by decide)).1

/-- C8: `user` issues the two profile GETs (anime list, manga list) but
then raises `AttributeError` on `.getroot()` instead of returning an
aggregated `User` record. -/
theorem C8_user_getroot_raises :
    MAL.user w200 fsEntry unesc0 c0 "bob"
      = ([MAL.userReq c0 "bob" "anime", MAL.userReq c0 "bob" "manga"],
         Except.error (PyError.attributeError "getroot"), c0) :=
  rfl

/-- C9: every post-construction operation returns the client state
(username, password, both base URLs, User-Agent header) unchanged: the
method bodies never assign to `self`. -/
theorem C9_operations_preserve_state (w : World) (fs : String → ET.Element)
    (unescape : String → String) (tx : AnimeRec → String)
    (tm : MangaRec → String) (c : MAL) (term name : String) (d : PyObj) :
    (MAL.search_anime w fs unescape c term).2.2 = c
    ∧ (MAL.search_manga w fs unescape c term).2.2 = c
    ∧ (MAL.anime_add w tx c d).2.2 = c
    ∧ (MAL.manga_add w tm c d).2.2 = c
    ∧ (MAL.anime_update w tx c d).2.2 = c
    ∧ (MAL.manga_update w tm c d).2.2 = c
    ∧ (MAL.anime_delete w c d).2.2 = c
    ∧ (MAL.manga_delete w c d).2.2 = c
    ∧ (MAL.user w fs unescape c name).2.2 = c :=
  ⟨rfl, rfl, rfl, rfl, rfl, rfl, rfl, rfl, rfl⟩

/-- C10: an entry whose `synonyms` element exists but has no text makes
the entry parsers (shared by search and the user-list parsers) raise
`AttributeError` (from `None.split`), so no record with an empty synonym
list is produced; and the `or []` fallback can never fire, because the
Python split always returns a non-empty, hence truthy, list. -/
theorem C10_missing_synonyms_text_raises (unescape : String → String)
    (item e : ET.Element) (s : String)
    (h1 : item.findTag "synonyms" = some e) (h2 : e.text = none) :
    MAL.parseAnimeEntry unescape item
        = Except.error (PyError.attributeError "split")
    ∧ MAL.parseMangaEntry unescape item
        = Except.error (PyError.attributeError "split")
    ∧ pySplitSemi s ≠ []
    ∧ pyOrList (pySplitSemi s) [] = pySplitSemi s := by
  have hsplit : textSplitSemi (item.findTag "synonyms")
      = Except.error (PyError.attributeError "split") := by
    simp only [h1, textSplitSemi, h2]
  refine ⟨?_, ?_, pySplitSemi_ne_nil s, pyOrList_id s⟩
  · rw [MAL.parseAnimeEntry, hsplit]; rfl
  · rw [MAL.parseMangaEntry, hsplit]; rfl

/-- C10 witness: a concrete entry with an empty `synonyms` element. -/
theorem C10_missing_synonyms_text_raises_witness :
    MAL.parseAnimeEntry unesc0 emptySynEntry
      = Except.error (PyError.attributeError "split") :=
  (C10_missing_synonyms_text_raises unesc0 emptySynEntry
    (ET.Element.mk "synonyms" none []) "a;b" rfl rfl).1
